import Mathlib

/-!
Verification of `bettersearch/src/database/parse.py` (BetterSearch).

The module is a file-content extractor: one public entry point
`parse_file_contents` dispatches on the file extension to one of three
backends (`_parse_pdf`, `_parse_ffmpeg`, `_parse_txt`), each of which calls
an external library.  We embed the module shallowly:

* Python values that flow through the module (JSON decoded by `json.loads`,
  EXIF tag values, return values) are modelled by `PyObj`.
* Python exceptions are modelled by `PyExn`; fallible computations live in
  `Except PyExn`.
* The external collaborators (UTF-8 file reading, the ffprobe subprocess
  plus `json.loads`, the PIL `_getexif` call, the PyMuPDF `needs_pass`
  flag, and `pymupdf4llm.to_markdown` with `margins=0`) are an
  environment `Env` of functions from the file path to their outcome.
* The extension registry `parsable_exts` lives in `constants.py`, which is
  not part of the provided sources; it is kept abstract as a `Registry`
  parameter with one list of extensions per backend category, matching the
  categories the dispatch code reads (`mupdf`, `ffmpeg_audio`,
  `ffmpeg_image`, `ffmpeg_video`, `text`).
-/

namespace BetterSearch

/-- Python exceptions that the embedded code can raise or receive from the
external libraries. -/
inductive PyExn where
  | typeError
  | attributeError
  | keyError
  | indexError
  | valueError
  | ioError
  | unicodeDecodeError
  deriving DecidableEq, Repr

/-- Python values flowing through `parse.py`: results of `json.loads`
(dicts, lists, strings, numbers, null), EXIF tag values, and the shapes the
module itself builds (tuples, strings, `None`).  Dict keys that the module
ever touches are strings, so dicts are association lists keyed by
`String`. -/
inductive PyObj where
  | none : PyObj
  | str : String → PyObj
  | int : Int → PyObj
  | list : List PyObj → PyObj
  | tup : List PyObj → PyObj
  | dict : List (String × PyObj) → PyObj

/-- Builtin `len(x)` for the value shapes in scope; `len` of `None` or a
number raises `TypeError`. -/
def pyLen : PyObj → Except PyExn Nat
  | .str s => .ok s.length
  | .list xs => .ok xs.length
  | .tup xs => .ok xs.length
  | .dict kvs => .ok kvs.length
  | _ => .error .typeError

/-- Subscripting with a string key, `x["k"]`: dict lookup (`KeyError` when
the key is absent); any non-dict raises `TypeError`. -/
def pyGetKey (o : PyObj) (k : String) : Except PyExn PyObj :=
  match o with
  | .dict kvs =>
      match kvs.lookup k with
      | some v => .ok v
      | none => .error .keyError
  | _ => .error .typeError

/-- Subscripting with an integer index, `x[i]`: list/tuple indexing
(`IndexError` out of range); any other shape raises `TypeError`. -/
def pyGetIdx (o : PyObj) (i : Nat) : Except PyExn PyObj :=
  match o with
  | .list xs =>
      match xs.get? i with
      | some v => .ok v
      | none => .error .indexError
  | .tup xs =>
      match xs.get? i with
      | some v => .ok v
      | none => .error .indexError
  | _ => .error .typeError

/-- Conversion `defaultdict(str, x)` requires `x` to be a mapping; on our
shapes only a dict qualifies, anything else raises `TypeError`. -/
def asMapping (o : PyObj) : Except PyExn (List (String × PyObj)) :=
  match o with
  | .dict kvs => .ok kvs
  | _ => .error .typeError

/-- Lookup `defaultdict(str, kvs)[k]`: the stored value when the key is
present, otherwise the value the default factory `str` makes, the empty
string. -/
def ddGet (kvs : List (String × PyObj)) (k : String) : PyObj :=
  (kvs.lookup k).getD (.str "")

/-- Application `itemgetter(k1,k2,k3,k4)(defaultdict(str, kvs))`: a
4-tuple of default-to-empty-string lookups. -/
def itemgetter4 (k1 k2 k3 k4 : String) (kvs : List (String × PyObj)) : PyObj :=
  .tup [ddGet kvs k1, ddGet kvs k2, ddGet kvs k3, ddGet kvs k4]

/-- Two-argument `str(object, encoding)`: CPython raises `TypeError` unless
`object` is bytes-like.  The values in scope here (EXIF `ImageWidth` /
`ImageLength` tags: integers, or `None` from `.get` when the tag is
missing) are never bytes-like, so on `PyObj` this always raises. -/
def pyStrTwoArgs (_a _b : PyObj) : Except PyExn String :=
  .error .typeError

/-! ### Path suffix, after `pathlib.PurePosixPath` -/

/-- Split a character list at every occurrence of `c` (like the Python
string split on the slash character, applied to the characters of a
path). -/
def splitOnChar (c : Char) : List Char → List (List Char)
  | [] => [[]]
  | x :: xs =>
      let r := splitOnChar c xs
      if x = c then [] :: r
      else
        match r with
        | [] => [[x]]
        | h :: t => (x :: h) :: t

/-- Attribute `pathlib.Path(p).name`: the last path component, with empty
and dot components dropped as the pathlib parser does. -/
def pathName (p : String) : List Char :=
  (((splitOnChar '/' p.toList).filter
      (fun s => !s.isEmpty && s ≠ ['.'])).getLast?).getD []

/-- Index of the last occurrence of `c` in `cs`, if any. -/
def lastIdxOf (c : Char) (cs : List Char) : Option Nat :=
  match cs.reverse.findIdx? (· = c) with
  | some j => some (cs.length - 1 - j)
  | none => none

/-- Attribute `pathlib.Path(p).suffix`: the substring of the name from its last dot,
provided that dot is neither the first nor the last character of the name;
otherwise the empty string. -/
def pathSuffix (p : String) : String :=
  let name := pathName p
  match lastIdxOf '.' name with
  | some i =>
      if 0 < i ∧ i < name.length - 1 then String.mk (name.drop i) else ""
  | none => ""

/-! ### Registry and environment -/

/-- The extension registry `parsable_exts` from `constants.py` (not among
the provided sources): one set of extension strings per backend category,
the five categories being exactly those the dispatch code reads. -/
structure Registry where
  mupdf : List String
  ffmpeg_audio : List String
  ffmpeg_image : List String
  ffmpeg_video : List String
  text : List String

/-- Modelled from the spec: `get_all_exts` lives in `util.py`, which is not
among the provided sources.  The spec describes the registry as "a mapping
from backend category to a set of recognized file-extension strings" and
the entry point's membership test as against "the union of all recognized
categories", so `get_all_exts` is the union of the five category sets
(membership in it does not depend on the order of the union). -/
def getAllExts (reg : Registry) : List String :=
  reg.mupdf ++ reg.ffmpeg_audio ++ reg.ffmpeg_image ++ reg.ffmpeg_video ++ reg.text

/-- The external collaborators, one function per external effect, each a
function of the file path:

* `readTextUtf8` — `open(p, "r", encoding="utf-8")` followed by `.read()`;
  an error models an unreadable file or invalid UTF-8.
* `ffprobeJson` — `json.loads(FFmpeg(executable="ffprobe").input(p,
  print_format="json", show_streams=None).execute())`: the decoded JSON
  value, or an error when the subprocess or the JSON decoding fails.
* `getexif` — `Image.open(p)._getexif()` followed by the comprehension
  `{ExifTags.TAGS[k]: v for k, v in ... if k in ExifTags.TAGS}`: `none`
  models `_getexif()` returning `None`, `some kvs` the tag-name-keyed
  dict; an error models `Image.open` failing.
* `needsPass` — `fitz.open(p).needs_pass`; an error models `fitz.open`
  failing.
* `toMarkdown` — `pymupdf4llm.to_markdown(p, margins=0)`, conversion with
  zero page margins. -/
structure Env where
  readTextUtf8 : String → Except PyExn String
  ffprobeJson : String → Except PyExn PyObj
  getexif : String → Except PyExn (Option (List (String × PyObj)))
  needsPass : String → Except PyExn Bool
  toMarkdown : String → Except PyExn String

/-! ### The four functions of `parse.py` -/

/-- Backend `_parse_txt`: open as UTF-8 text, read fully, return the
string. -/
def parseTxt (env : Env) (p : String) : Except PyExn PyObj := do
  let content ← env.readTextUtf8 p
  pure (.str content)

/-- The audio/video sub-path of `_parse_ffmpeg` (the branch taken when
the extension lies in the concatenation of the ffmpeg_audio and
ffmpeg_video category lists).

Faithful to the source, including two defects:

* the branch condition is `len(ffprobe_out) == 1`, the number of top-level
  keys of the decoded JSON — not the number of entries of the streams
  list;
* in the `else` branch, `video_metadata` is the tuple built by
  `itemgetter(...)`, so the attribute access `video_metadata.update`
  raises `AttributeError` (CPython resolves the attribute before
  evaluating the argument, so the "dimensions" string is never built). -/
def parseFfmpegAV (env : Env) (p : String) : Except PyExn PyObj := do
  let out ← env.ffprobeJson p
  let n ← pyLen out
  if n = 1 then
    let streams ← pyGetKey out "streams"
    let s0 ← pyGetIdx streams 0
    let kvs ← asMapping s0
    pure (.tup [.none, itemgetter4 "title" "album" "genre" "duration" kvs])
  else
    let streams ← pyGetKey out "streams"
    let s0 ← pyGetIdx streams 0
    let kvs ← asMapping s0
    let _video := itemgetter4 "title" "frame_rate" "director" "duration" kvs
    throw .attributeError

/-- The image sub-path of `_parse_ffmpeg`.  Faithful to the source: when
`_getexif()` returns `None`, the `.items()` call raises `AttributeError`;
otherwise the update of `image_metadata` with the "dimensions" entry
evaluates the two-argument `str(exif_tags.get("ImageWidth"),
exif_tags.get("ImageLength"))`, which raises `TypeError` (see
`pyStrTwoArgs`), so the statements after it — the GPS / camera-model /
date-taken extraction — are unreachable. -/
def parseImage (env : Env) (p : String) : Except PyExn PyObj := do
  let exifOpt ← env.getexif p
  match exifOpt with
  | Option.none => throw .attributeError
  | Option.some kvs =>
      let _dims ← pyStrTwoArgs ((kvs.lookup "ImageWidth").getD .none)
          ((kvs.lookup "ImageLength").getD .none)
      -- Unreachable continuation: `pyStrTwoArgs` raises on every `PyObj`
      -- in scope, so the statements after the `update` call (GPS / camera
      -- model / date taken, via `convert_gps_info_to_lat_lon_alt` from
      -- `util.py`) can never run and are not modelled further.
      throw .typeError

/-- Backend `_parse_ffmpeg`: `parsed = None`, then the audio/video
sub-path, else the image sub-path, else `logging.error(...)` and `parsed`
stays `None`. -/
def parseFfmpeg (reg : Registry) (env : Env) (p ext : String) :
    Except PyExn PyObj :=
  if ext ∈ reg.ffmpeg_audio ++ reg.ffmpeg_video then parseFfmpegAV env p
  else if ext ∈ reg.ffmpeg_image then parseImage env p
  else pure .none

/-- Backend `_parse_pdf`: open the document; when it does not need a
password, return the zero-margin markdown conversion; otherwise the `TODO`
branch falls through and the function returns `None`. -/
def parsePdf (env : Env) (p : String) : Except PyExn PyObj := do
  let np ← env.needsPass p
  if !np then
    let md ← env.toMarkdown p
    pure (.str md)
  else
    pure .none

/-- Which branch of the entry point's conditional chain handles a path:
the early `return None` when the suffix is not in `get_all_exts`, one of
the three backend branches, or the final `else` that only logs. -/
inductive Branch where
  | earlyNone
  | pdf
  | ffmpeg
  | txt
  | unmatched
  deriving DecidableEq, Repr

/-- The conditional chain of `parse_file_contents`, in source order:
membership in `get_all_exts(parsable_exts)` first, then `mupdf`, then
`chain(ffmpeg_audio, ffmpeg_image, ffmpeg_video)`, then `text`, else the
log-only branch. -/
def dispatchBranch (reg : Registry) (p : String) : Branch :=
  if pathSuffix p ∉ getAllExts reg then .earlyNone
  else if pathSuffix p ∈ reg.mupdf then .pdf
  else if pathSuffix p ∈ reg.ffmpeg_audio ++ reg.ffmpeg_image ++ reg.ffmpeg_video then .ffmpeg
  else if pathSuffix p ∈ reg.text then .txt
  else .unmatched

/-- The body of the `try:` block of `parse_file_contents`: resolve the
suffix, dispatch.  The `earlyNone` branch is `return None`; the
`unmatched` branch logs and falls off the function, returning `None`. -/
def parseBody (reg : Registry) (env : Env) (p : String) : Except PyExn PyObj :=
  match dispatchBranch reg p with
  | .earlyNone => pure .none
  | .pdf => parsePdf env p
  | .ffmpeg => parseFfmpeg reg env p (pathSuffix p)
  | .txt => parseTxt env p
  | .unmatched => pure .none

/-- Entry point `parse_file_contents`: the body wrapped in the bare
`try: ... except: pass`, so every exception collapses to the implicit
`None` return. -/
def parse_file_contents (reg : Registry) (env : Env) (p : String) : PyObj :=
  match parseBody reg env p with
  | .ok v => v
  | .error _ => .none

/-- Character-wise lower-casing, for stating case-(in)sensitivity. -/
def lowerStr (s : String) : String :=
  String.mk (s.toList.map Char.toLower)

/-! ### Concrete fixtures for the closed evaluations below -/

/-- A small concrete registry, one extension per category. -/
def regW : Registry where
  mupdf := [".pdf"]
  ffmpeg_audio := [".mp3"]
  ffmpeg_image := [".jpg"]
  ffmpeg_video := [".mp4"]
  text := [".txt"]

/-- A baseline environment in which every external call fails. -/
def envD : Env where
  readTextUtf8 := fun _ => .error .ioError
  ffprobeJson := fun _ => .error .valueError
  getexif := fun _ => .error .ioError
  needsPass := fun _ => .error .ioError
  toMarkdown := fun _ => .error .ioError

/-- A probe outcome reporting exactly one stream. -/
def probeOneStream (_p : String) : Except PyExn PyObj :=
  .ok (.dict [("streams", .list
    [.dict [("title", .str "Song"), ("duration", .str "12.0")]])])

/-- Environment whose stream probe reports exactly one stream. -/
def envOneStream : Env := { envD with ffprobeJson := probeOneStream }

/-- A probe outcome reporting two streams, the first carrying a width. -/
def probeTwoStreams (_p : String) : Except PyExn PyObj :=
  .ok (.dict [("streams", .list
    [.dict [("width", .int 1920), ("duration", .str "60.0")],
     .dict [("codec_type", .str "audio")]])])

/-- Environment whose stream probe reports two streams. -/
def envTwoStreams : Env := { envD with ffprobeJson := probeTwoStreams }

/-- EXIF tags of a well-formed photo: integer width and length, a camera
model and a date. -/
def exifPhoto (_p : String) : Except PyExn (Option (List (String × PyObj))) :=
  .ok (some [("ImageWidth", .int 640), ("ImageLength", .int 480),
    ("Model", .str "PixelCam"), ("DateTime", .str "2023:01:01 00:00:00")])

/-- Environment whose EXIF reader returns the photo tags above. -/
def envPhoto : Env := { envD with getexif := exifPhoto }

/-- Environment whose document opens as password-protected. -/
def envLocked : Env := { envD with needsPass := fun _ => .ok true }

/-- Environment with an unprotected document whose markdown conversion
yields the empty string. -/
def envEmptyMd : Env :=
  { envD with
    needsPass := fun _ => .ok false
    toMarkdown := fun _ => .ok "" }

/-- Environment with an unprotected document whose markdown conversion
yields a non-empty string. -/
def envSomeMd : Env :=
  { envD with
    needsPass := fun _ => .ok false
    toMarkdown := fun _ => .ok "# Title" }

/-- Environment whose UTF-8 read succeeds with a known string. -/
def envHello : Env :=
  { envD with readTextUtf8 := fun _ => .ok "hello κόσμε\n" }

/-! ### Helper lemmas -/

/-- An unregistered suffix makes the body return `ok None` with no
backend involved: the early `return None` branch fires for every
environment. -/
theorem parseBody_of_unregistered (reg : Registry) (p : String)
    (h : pathSuffix p ∉ getAllExts reg) (env : Env) :
    parseBody reg env p = .ok PyObj.none := by
  have hb : dispatchBranch reg p = .earlyNone := by
    unfold dispatchBranch
    rw [if_pos h]
  unfold parseBody
  rw [hb]
  rfl

/-- Whenever the body succeeds with a value, the entry point returns it. -/
theorem parse_of_body_ok (reg : Registry) (env : Env) (p : String)
    (v : PyObj) (h : parseBody reg env p = .ok v) :
    parse_file_contents reg env p = v := by
  unfold parse_file_contents
  rw [h]

/-- A suffix in the mupdf category routes the body to `_parse_pdf`. -/
theorem parseBody_of_mupdf (reg : Registry) (env : Env) (p : String)
    (hext : pathSuffix p ∈ reg.mupdf) :
    parseBody reg env p = parsePdf env p := by
  have hall : ¬ pathSuffix p ∉ getAllExts reg := by
    have : pathSuffix p ∈ getAllExts reg := by
      unfold getAllExts
      simp [hext]
    exact not_not_intro this
  have hb : dispatchBranch reg p = .pdf := by
    unfold dispatchBranch
    rw [if_neg hall, if_pos hext]
  unfold parseBody
  rw [hb]

/-- A suffix in the audio or video category, and not in the mupdf one,
routes the body to the audio/video sub-path of `_parse_ffmpeg`. -/
theorem parseBody_of_audio_video (reg : Registry) (env : Env) (p : String)
    (hext : pathSuffix p ∈ reg.ffmpeg_audio ++ reg.ffmpeg_video)
    (hpdf : pathSuffix p ∉ reg.mupdf) :
    parseBody reg env p = parseFfmpegAV env p := by
  have hcases := List.mem_append.mp hext
  have hall : ¬ pathSuffix p ∉ getAllExts reg := by
    have : pathSuffix p ∈ getAllExts reg := by
      unfold getAllExts
      rcases hcases with h | h <;> simp [h]
    exact not_not_intro this
  have hchain :
      pathSuffix p ∈ reg.ffmpeg_audio ++ reg.ffmpeg_image ++ reg.ffmpeg_video := by
    rcases hcases with h | h <;> simp [h]
  have hb : dispatchBranch reg p = .ffmpeg := by
    unfold dispatchBranch
    rw [if_neg hall, if_neg hpdf, if_pos hchain]
  unfold parseBody
  rw [hb]
  show parseFfmpeg reg env p (pathSuffix p) = parseFfmpegAV env p
  unfold parseFfmpeg
  rw [if_pos hext]

/-- A suffix in the text category, and in none of the categories checked
before it, routes the body to `_parse_txt`. -/
theorem parseBody_of_text (reg : Registry) (env : Env) (p : String)
    (hext : pathSuffix p ∈ reg.text)
    (hpdf : pathSuffix p ∉ reg.mupdf)
    (hmedia : pathSuffix p ∉ reg.ffmpeg_audio ++ reg.ffmpeg_image ++ reg.ffmpeg_video) :
    parseBody reg env p = parseTxt env p := by
  have hall : ¬ pathSuffix p ∉ getAllExts reg := by
    have : pathSuffix p ∈ getAllExts reg := by
      unfold getAllExts
      simp [hext]
    exact not_not_intro this
  have hb : dispatchBranch reg p = .txt := by
    unfold dispatchBranch
    rw [if_neg hall, if_neg hpdf, if_neg hmedia, if_pos hext]
  unfold parseBody
  rw [hb]

/-! ### The claims -/

/-- C1: for every registry, environment and input path, a call to
`parse_file_contents` never lets an exception escape: whenever the body of
the `try` block (extension resolution and every backend) raises, the bare
`except: pass` makes the call return `None` instead of raising. -/
theorem parse_file_contents_catches_all (reg : Registry) (env : Env)
    (p : String) (e : PyExn) (h : parseBody reg env p = .error e) :
    parse_file_contents reg env p = PyObj.none := by
  unfold parse_file_contents
  rw [h]

/-- Witness for C1: a registry recognizing `.txt` and an environment whose
file read raises make the body error out, and the call returns `None`. -/
theorem parse_file_contents_catches_all_witness :
    parseBody regW envD "notes.txt" = .error .ioError ∧
    parse_file_contents regW envD "notes.txt" = PyObj.none :=
  ⟨rfl, parse_file_contents_catches_all regW envD "notes.txt" .ioError rfl⟩

/-- C2: when the suffix of the path is outside the union of all recognized
extension categories, `parse_file_contents` returns `None`, no exception
escapes (the body itself already succeeds with `None`), and — since the
conclusion holds for every environment — no backend routine is invoked. -/
theorem unregistered_extension_returns_none (reg : Registry) (p : String)
    (h : pathSuffix p ∉ getAllExts reg) :
    ∀ env : Env, parseBody reg env p = .ok PyObj.none ∧
      parse_file_contents reg env p = PyObj.none := by
  intro env
  have hbody := parseBody_of_unregistered reg p h env
  exact ⟨hbody, parse_of_body_ok reg env p PyObj.none hbody⟩

/-- Witness for C2: the suffix `.xyz` is not registered, and the call on
the all-failing environment returns `None` without error. -/
theorem unregistered_extension_returns_none_witness :
    pathSuffix "file.xyz" ∉ getAllExts regW ∧
    (parseBody regW envD "file.xyz" = .ok PyObj.none ∧
      parse_file_contents regW envD "file.xyz" = PyObj.none) :=
  ⟨by decide, unregistered_extension_returns_none regW "file.xyz" (by decide) envD⟩

/-- C3: for a path whose suffix is in the audio or video category (and not
in the document category, which the dispatch checks first — the spec's
disjointness invariant), when the stream probe reports exactly one stream
record, the result is the pair whose video component is `None` and whose
audio component is the 4-tuple of the title, album, genre and duration
fields of that record, each defaulting to the empty string when absent. -/
theorem audio_only_stream_metadata (reg : Registry) (env : Env) (p : String)
    (fields : List (String × PyObj))
    (hext : pathSuffix p ∈ reg.ffmpeg_audio ++ reg.ffmpeg_video)
    (hpdf : pathSuffix p ∉ reg.mupdf)
    (hprobe : env.ffprobeJson p =
      .ok (.dict [("streams", .list [.dict fields])])) :
    parse_file_contents reg env p =
      PyObj.tup [PyObj.none,
        PyObj.tup [ddGet fields "title", ddGet fields "album",
          ddGet fields "genre", ddGet fields "duration"]] := by
  have hbody := parseBody_of_audio_video reg env p hext hpdf
  have hav : parseFfmpegAV env p =
      .ok (PyObj.tup [PyObj.none,
        PyObj.tup [ddGet fields "title", ddGet fields "album",
          ddGet fields "genre", ddGet fields "duration"]]) := by
    unfold parseFfmpegAV
    rw [hprobe]
    rfl
  exact parse_of_body_ok reg env p _ (hbody.trans hav)

/-- Witness for C3: an mp3 path with a one-stream probe outcome yields
`(None, (title, "", "", duration))`. -/
theorem audio_only_stream_metadata_witness :
    parse_file_contents regW envOneStream "music/song.mp3" =
      PyObj.tup [PyObj.none,
        PyObj.tup [PyObj.str "Song", PyObj.str "", PyObj.str "",
          PyObj.str "12.0"]] :=
  audio_only_stream_metadata regW envOneStream "music/song.mp3"
    [("title", .str "Song"), ("duration", .str "12.0")]
    (by decide) (by decide) rfl

/-- C4 counter-evaluation: on a video path whose probe reports two
streams, `parse_file_contents` still returns the audio-only shape — the
video component is `None`, not a mapping with title, frame-rate, director,
duration and dimensions.  The branch condition `len(ffprobe_out) == 1`
counts the top-level JSON keys (always one, `streams`), not the streams;
and the `else` branch, if it were ever reached, would raise
`AttributeError` at `video_metadata.update` since `itemgetter` built a
tuple. -/
theorem multistream_still_audio_only :
    parse_file_contents regW envTwoStreams "clips/movie.mp4" =
      PyObj.tup [PyObj.none,
        PyObj.tup [PyObj.str "", PyObj.str "", PyObj.str "",
          PyObj.str "60.0"]] := rfl

/-- C5: for a path whose suffix is in the text category and in no category
checked before it (the spec's disjointness invariant), when the UTF-8 read
succeeds with contents `s`, `parse_file_contents` returns exactly `s`,
unchanged. -/
theorem text_roundtrip (reg : Registry) (env : Env) (p s : String)
    (hext : pathSuffix p ∈ reg.text)
    (hpdf : pathSuffix p ∉ reg.mupdf)
    (hmedia : pathSuffix p ∉ reg.ffmpeg_audio ++ reg.ffmpeg_image ++ reg.ffmpeg_video)
    (hread : env.readTextUtf8 p = .ok s) :
    parse_file_contents reg env p = PyObj.str s := by
  have hbody := parseBody_of_text reg env p hext hpdf hmedia
  have ht : parseTxt env p = .ok (PyObj.str s) := by
    unfold parseTxt
    rw [hread]
    rfl
  exact parse_of_body_ok reg env p _ (hbody.trans ht)

/-- Witness for C5: a `.txt` path whose read yields a known string is
returned verbatim. -/
theorem text_roundtrip_witness :
    parse_file_contents regW envHello "notes/file.txt" =
      PyObj.str "hello κόσμε\n" :=
  text_roundtrip regW envHello "notes/file.txt" "hello κόσμε\n"
    (by decide) (by decide) (by decide) rfl

/-- C6 counter-evaluation: on an image path whose EXIF tags are present
and well-formed (integer width and length, camera model, date), the image
sub-path raises `TypeError` — the two-argument call
`str(exif_tags.get("ImageWidth"), exif_tags.get("ImageLength"))` treats
its second argument as an encoding and requires a bytes-like first
argument — and the entry point turns that into `None`.  No flat metadata
mapping is ever produced. -/
theorem image_branch_raises_typeerror :
    parseBody regW envPhoto "pics/photo.jpg" = .error .typeError ∧
    parse_file_contents regW envPhoto "pics/photo.jpg" = PyObj.none :=
  ⟨rfl, rfl⟩

/-- C7: for a path whose suffix is in the document category, when the
document library flags the file as password-protected the call returns
`None`, and the markdown converter is never invoked: the result is `None`
no matter which converter the environment carries. -/
theorem password_protected_returns_none (reg : Registry) (env : Env)
    (p : String) (hext : pathSuffix p ∈ reg.mupdf)
    (hpass : env.needsPass p = .ok true) :
    parse_file_contents reg env p = PyObj.none ∧
    ∀ md : String → Except PyExn String,
      parse_file_contents reg { env with toMarkdown := md } p = PyObj.none := by
  constructor
  · have hbody := parseBody_of_mupdf reg env p hext
    have hp : parsePdf env p = .ok PyObj.none := by
      unfold parsePdf
      rw [hpass]
      rfl
    exact parse_of_body_ok reg env p _ (hbody.trans hp)
  · intro md
    have hbody := parseBody_of_mupdf reg { env with toMarkdown := md } p hext
    have hp : parsePdf { env with toMarkdown := md } p = .ok PyObj.none := by
      unfold parsePdf
      rw [show ({ env with toMarkdown := md } : Env).needsPass p = .ok true from hpass]
      rfl
    exact parse_of_body_ok reg { env with toMarkdown := md } p _ (hbody.trans hp)

/-- Witness for C7: a `.pdf` path in an environment whose document opens
as password-protected yields `None`, for the failing converter and for an
arbitrary replacement converter alike. -/
theorem password_protected_returns_none_witness :
    parse_file_contents regW envLocked "docs/locked.pdf" = PyObj.none ∧
    parse_file_contents regW
      { envLocked with toMarkdown := fun _ => .ok "# secret" }
      "docs/locked.pdf" = PyObj.none := by
  have h := password_protected_returns_none regW envLocked "docs/locked.pdf"
    (by decide) rfl
  exact ⟨h.1, h.2 (fun _ => .ok "# secret")⟩

/-- C8 counterexample: the claim asserts a non-empty markdown string, but
the code returns the converter output unchecked: with a converter whose
zero-margin output is the empty string, the call returns the empty string
— a string value, yet not a non-empty one. -/
theorem pdf_empty_markdown_counterexample :
    parse_file_contents regW envEmptyMd "docs/blank.pdf" = PyObj.str "" ∧
    ¬ ∃ s : String, s ≠ "" ∧
      parse_file_contents regW envEmptyMd "docs/blank.pdf" = PyObj.str s := by
  refine ⟨rfl, ?_⟩
  rintro ⟨s, hs, h⟩
  rw [show parse_file_contents regW envEmptyMd "docs/blank.pdf" =
    PyObj.str "" from rfl] at h
  injection h with h2
  exact hs h2.symm

/-- C8 (amended): for a path whose suffix is in the document category, a
document that is not password-protected, and a markdown converter whose
zero-margin conversion succeeds with `s`, `parse_file_contents` returns
exactly `s` — the converter's direct output, with no non-emptiness
guarantee. -/
theorem pdf_returns_converter_output (reg : Registry) (env : Env)
    (p s : String) (hext : pathSuffix p ∈ reg.mupdf)
    (hpass : env.needsPass p = .ok false)
    (hmd : env.toMarkdown p = .ok s) :
    parse_file_contents reg env p = PyObj.str s := by
  have hbody := parseBody_of_mupdf reg env p hext
  have hp : parsePdf env p = .ok (PyObj.str s) := by
    unfold parsePdf
    rw [hpass]
    show (do
      let md ← env.toMarkdown p
      pure (.str md) : Except PyExn PyObj) = .ok (PyObj.str s)
    rw [hmd]
    rfl
  exact parse_of_body_ok reg env p _ (hbody.trans hp)

/-- Witness for C8 (amended): an unprotected `.pdf` whose conversion
yields a non-empty markdown string returns exactly that string. -/
theorem pdf_returns_converter_output_witness :
    parse_file_contents regW envSomeMd "docs/report.pdf" =
      PyObj.str "# Title" :=
  pdf_returns_converter_output regW envSomeMd "docs/report.pdf" "# Title"
    (by decide) rfl rfl

/-- C9: the unmatched-extension error branch of the entry point is
unreachable: for every registry and path the dispatch either returns
`None` before reaching the backends (suffix not registered) or selects
exactly one backend branch.  The precondition of the claim — that the
membership check uses exactly the union of the per-category sets of the
dispatch — holds by the definition of `getAllExts`, which is modelled from
the spec because `util.py` is not among the provided sources. -/
theorem unmatched_branch_unreachable (reg : Registry) (p : String) :
    dispatchBranch reg p = .earlyNone ∨ dispatchBranch reg p = .pdf ∨
    dispatchBranch reg p = .ffmpeg ∨ dispatchBranch reg p = .txt := by
  unfold dispatchBranch
  by_cases h1 : pathSuffix p ∉ getAllExts reg
  · rw [if_pos h1]
    exact Or.inl rfl
  · rw [if_neg h1]
    by_cases h2 : pathSuffix p ∈ reg.mupdf
    · rw [if_pos h2]
      exact Or.inr (Or.inl rfl)
    · rw [if_neg h2]
      by_cases h3 : pathSuffix p ∈ reg.ffmpeg_audio ++ reg.ffmpeg_image ++ reg.ffmpeg_video
      · rw [if_pos h3]
        exact Or.inr (Or.inr (Or.inl rfl))
      · rw [if_neg h3]
        by_cases h4 : pathSuffix p ∈ reg.text
        · rw [if_pos h4]
          exact Or.inr (Or.inr (Or.inr rfl))
        · exfalso
          have hall := not_not.mp h1
          unfold getAllExts at hall
          simp only [List.mem_append] at hall h3
          tauto

/-- C10: extension matching is verbatim and case-sensitive: a path whose
suffix agrees with a registered extension up to letter case but is not
itself registered is rejected by the membership check — the call returns
`None` without touching any backend (the conclusion holds for every
environment). -/
theorem case_variant_extension_returns_none (reg : Registry) (p : String)
    (_hvar : ∃ e ∈ getAllExts reg, lowerStr e = lowerStr (pathSuffix p))
    (hnot : pathSuffix p ∉ getAllExts reg) :
    ∀ env : Env, parseBody reg env p = .ok PyObj.none ∧
      parse_file_contents reg env p = PyObj.none := by
  intro env
  have hbody := parseBody_of_unregistered reg p hnot env
  exact ⟨hbody, parse_of_body_ok reg env p PyObj.none hbody⟩

/-- Witness for C10: `.TXT` is a case variant of the registered `.txt` but
is not itself registered, and the call returns `None` untouched by any
backend. -/
theorem case_variant_extension_returns_none_witness :
    (∃ e ∈ getAllExts regW, lowerStr e = lowerStr (pathSuffix "a.TXT")) ∧
    pathSuffix "a.TXT" ∉ getAllExts regW ∧
    (parseBody regW envHello "a.TXT" = .ok PyObj.none ∧
      parse_file_contents regW envHello "a.TXT" = PyObj.none) :=
  ⟨by decide, by decide,
    case_variant_extension_returns_none regW "a.TXT" (by decide) (by decide)
      envHello⟩

end BetterSearch
